import Mathlib

/- Verification development for the logger_tt delivery sinks
   (src/logger_tt/handlers.py): a count/time-buffered stream writer
   (StreamHandlerWithBuffer) and a Telegram notification sink
   (TelegramHandler).  The Python code is shallowly embedded as pure
   state-passing Lean functions; exceptions are modelled with
   Option/Except, machine floats appear only in trivially exact
   comparisons (modelled over the rationals), and the per-sink lock is
   an explicit re-entrant counter. -/

set_option maxRecDepth 10000

deriving instance DecidableEq for Except

namespace LoggerTT

/- Section: string helpers.  These model the exact Python string
   primitives the handlers use (str.split, str.strip, str.join,
   startswith, urllib.parse.quote_plus), written structurally over the
   character list so that the kernel can evaluate them. -/

/-- Model of the Python expression sep.join(xs) for a list of strings. -/
def joinSep (sep : String) : List String → String
  | [] => ""
  | [x] => x
  | x :: y :: xs => x ++ sep ++ joinSep sep (y :: xs)

/-- Model of the Python expression s.split(c) over the character list of s. -/
def splitChars (sep : Char) : List Char → List String
  | [] => [""]
  | c :: cs =>
    let r := splitChars sep cs
    if c = sep then "" :: r
    else
      match r with
      | [] => [String.singleton c]
      | h :: t => (String.singleton c ++ h) :: t

/-- Model of the Python expression s.split(c) on strings. -/
def pySplit (s : String) (sep : Char) : List String := splitChars sep s.data

/-- Whitespace characters stripped by the Python str.strip() default. -/
def isPyWhitespace (c : Char) : Bool :=
  c = ' ' || c = '\t' || c = '\n' || c = '\r' || c.toNat = 11 || c.toNat = 12

/-- Drop leading whitespace characters from a character list. -/
def dropLeadingWs : List Char → List Char
  | [] => []
  | c :: cs => if isPyWhitespace c then dropLeadingWs cs else c :: cs

/-- Model of the Python expression s.strip(). -/
def pyStrip (s : String) : String :=
  ⟨(dropLeadingWs ((dropLeadingWs s.data).reverse)).reverse⟩

/-- Boolean test that p is a prefix of s, model of s.startswith(p). -/
def startsWithPy (s p : String) : Bool :=
  List.isPrefixOf p.data s.data

/-- Boolean test that the character c occurs in the string s. -/
def containsChar (s : String) (c : Char) : Bool := s.data.any (· = c)

/-- UTF-8 encoding of one code point, as the list of its byte values. -/
def utf8Bytes (c : Char) : List Nat :=
  let n := c.toNat
  if n < 0x80 then [n]
  else if n < 0x800 then [0xC0 + n / 0x40, 0x80 + n % 0x40]
  else if n < 0x10000 then
    [0xE0 + n / 0x1000, 0x80 + (n / 0x40) % 0x40, 0x80 + n % 0x40]
  else
    [0xF0 + n / 0x40000, 0x80 + (n / 0x1000) % 0x40,
     0x80 + (n / 0x40) % 0x40, 0x80 + n % 0x40]

/-- Uppercase hexadecimal digit for a value below 16. -/
def hexDigit (n : Nat) : Char :=
  Char.ofNat (if n < 10 then 48 + n else 55 + n)

/-- Characters that urllib.parse.quote_plus leaves unquoted. -/
def isSafeByte (b : Nat) : Bool :=
  (65 ≤ b && b ≤ 90) || (97 ≤ b && b ≤ 122) || (48 ≤ b && b ≤ 57) ||
  b = 95 || b = 46 || b = 45 || b = 126

/-- Encoding of a single byte under urllib.parse.quote_plus. -/
def quoteByte (b : Nat) : String :=
  if b = 32 then "+"
  else if isSafeByte b then String.singleton (Char.ofNat b)
  else "%" ++ String.singleton (hexDigit (b / 16)) ++ String.singleton (hexDigit (b % 16))

/-- Model of urllib.parse.quote_plus on a string. -/
def quotePlus (s : String) : String :=
  String.join ((s.data.flatMap utf8Bytes).map quoteByte)

/- Section: StreamHandlerWithBuffer.  The handler state carries the
   construction parameters, the list buffer, and the writes performed
   on the underlying stream (each element is one stream.write call).
   Time is not modelled; the watcher thread is out of this state. -/

/-- State of a StreamHandlerWithBuffer instance. -/
structure BufState where
  bufferTime : ℚ
  bufferLines : Int
  terminator : String := "\n"
  debug : Bool := false
  buffer : List String := []
  writes : List String := []
  stopFlag : Bool := false
deriving DecidableEq, Repr

/-- Passing condition of the constructor assert of StreamHandlerWithBuffer:
assert buffer_time greater-or-equal 0 or buffer_lines greater-or-equal 0.
The constructor raises AssertionError exactly when this is false. -/
def bufferInitAssertPasses (buffer_time : ℚ) (buffer_lines : Int) : Bool :=
  decide (buffer_time ≥ 0) || decide (buffer_lines ≥ 0)

/-- Model of StreamHandlerWithBuffer.export: join the buffer with the
terminator (after the optional debug marker line), write once to the
stream, and clear the buffer.  The now argument stands for the wall
clock string used by the debug line. -/
def BufState.exportBuf (now : String) (s : BufState) : BufState :=
  let buf := if s.debug then s.buffer ++ ["StreamHandlerWithBuffer flush: " ++ now] else s.buffer
  { s with writes := s.writes ++ [joinSep s.terminator buf ++ s.terminator],
           buffer := [] }

/-- Model of StreamHandlerWithBuffer.emit: the argument is the result of
self.format(record); a formatting exception takes the handleError path
(no state change). -/
def BufState.emit (now : String) (s : BufState) (fmtResult : Except Unit String) : BufState :=
  match fmtResult with
  | .error _ => s
  | .ok msg =>
    let s := { s with buffer := s.buffer ++ [msg] }
    if s.bufferLines ≠ 0 ∧ s.bufferLines ≤ (s.buffer.length : Int) then
      BufState.exportBuf now s
    else s

/-- Emitting a list of successfully formatted lines in order. -/
def BufState.emitMany (s : BufState) (lines : List String) : BufState :=
  lines.foldl (fun st m => BufState.emit "" st (.ok m)) s

/-- Model of StreamHandlerWithBuffer.close: set the stop event only. -/
def BufState.close (s : BufState) : BufState := { s with stopFlag := true }

/- Section: TelegramHandler data model.  A log record carries exactly
   the attributes the handler reads; created is the integer-seconds
   timestamp (the code only ever uses int(record.created)); remark and
   dest_name default to the empty string, matching getattr defaults. -/

/-- Log record as consumed by TelegramHandler. -/
structure LogRecord where
  msg : String
  name : String
  levelno : Nat
  pathname : String
  lineno : Nat
  args : List String
  funcName : String
  created : Nat
  remark : String := ""
  dest_name : String := ""
deriving DecidableEq, Repr

/-- Entry of a destination cache: either a raw record or a grouped
(window start, rendered text) pair produced by msg_grouping. -/
inductive CacheEntry where
  | raw : LogRecord → CacheEntry
  | grouped : Nat → String → CacheEntry
deriving DecidableEq, Repr

/-- Outcome class of one urlopen call inside TelegramHandler._request. -/
inductive ReqOutcome where
  | success
  | jsonError
  | http403
  | http429
  | httpOther
  | connReset
  | otherExc
deriving DecidableEq, Repr

/-- Return value of TelegramHandler._request for each outcome class:
true for success, undecodable response, or 403; false otherwise. -/
def ReqOutcome.toBool : ReqOutcome → Bool
  | .success => true
  | .jsonError => true
  | .http403 => true
  | .http429 => false
  | .httpOther => false
  | .connReset => false
  | .otherExc => false

/-- External formatter supplied by the logging facility: the result of
logging.Handler.format on a record, which may raise. -/
abbrev Render := LogRecord → Except Unit String

/-- Network oracle: outcome of the k-th urlopen call of a run. -/
abbrev Oracle := Nat → ReqOutcome

/-- State of a TelegramHandler instance.  lockCount is the re-entrant
lock counter; requests records every urlopen attempt as a
(destination id, full url) pair in order. -/
structure TgState where
  uniqueIds : List String
  url : String
  caches : List (String × List CacheEntry)
  feedback : List (String × Option ReqOutcome)
  lastRecord : Option LogRecord
  dupCount : Nat
  groupingInterval : Nat
  lockCount : Nat
  reqCount : Nat
  requests : List (String × String)
  stopEvent : Bool
deriving DecidableEq, Repr

/-- Keep the first occurrence of each key, as a Python dict built by
comprehension over the id list does. -/
def dedupFirst (seen : List String) : List String → List String
  | [] => []
  | x :: xs => if x ∈ seen then dedupFirst seen xs else x :: dedupFirst (x :: seen) xs

/-- Passing condition of the TelegramHandler constructor check: with a
nonzero grouping interval, check_interval must exceed push_interval
(grouping_interval plus 4) or a ValueError is raised whose message asks
for at least twice the push interval. -/
def telegramInitCheck (check_interval : Int) (grouping_interval : Int) : Except String Unit :=
  let gi : Int := max 0 grouping_interval
  let pushInterval := gi + 4
  if gi ≠ 0 ∧ check_interval ≤ pushInterval then
    .error "check_interval is too small"
  else .ok ()

/-- Python truthiness universe for the set_unique_ids argument. -/
inductive PyVal where
  | pnone
  | pint (n : Int)
  | pstr (s : String)
  | pother (truthy : Bool)
deriving DecidableEq, Repr

/-- Python truthiness of a PyVal. -/
def pyTruthy : PyVal → Bool
  | .pnone => false
  | .pint n => n ≠ 0
  | .pstr s => s ≠ ""
  | .pother t => t

/-- Model of TelegramHandler.set_unique_ids: falsy input gives the empty
list, a str is split on semicolons and stripped, an int becomes a
one-element list, anything else raises TypeError. -/
def set_unique_ids (ids : PyVal) : Except String (List String) :=
  if !pyTruthy ids then .ok []
  else
    match ids with
    | .pstr s => .ok ((pySplit s ';').map pyStrip)
    | .pint n => .ok [toString n]
    | _ => .error "TypeError"

/-- Initial TelegramHandler state for a token and parsed id list (the
environment lookup already resolved), with grouping interval gi after
the max(0, int(..)) normalisation. -/
def initTg (token : String) (ids : List String) (gi : Nat) : TgState :=
  { uniqueIds := ids,
    url := "https://api.telegram.org/bot" ++ token ++ "/sendMessage",
    caches := (dedupFirst [] ids).map (fun i => (i, [])),
    feedback := (dedupFirst [] ids).map (fun i => (i, none)),
    lastRecord := none,
    dupCount := 0,
    groupingInterval := gi,
    lockCount := 0,
    reqCount := 0,
    requests := [],
    stopEvent := false }

/-- Model of logging.Handler.acquire on the sink lock. -/
def TgState.acquire (s : TgState) : TgState := { s with lockCount := s.lockCount + 1 }

/-- Model of logging.Handler.release on the sink lock. -/
def TgState.release (s : TgState) : TgState := { s with lockCount := s.lockCount - 1 }

/-- Model of TelegramHandler.close: set the stop event only. -/
def TgState.close (s : TgState) : TgState := { s with stopEvent := true }

/-- Model of TelegramHandler.format: external formatter output plus the
optional remark attribute, percent-encoded with quote_plus. -/
def formatTg (render : Render) (r : LogRecord) : Except Unit String :=
  match render r with
  | .ok t => .ok (quotePlus (t ++ r.remark))
  | .error e => .error e

/-- Model of TelegramHandler._get_full_url: strip an optional label
before the last colon, then split an optional at-sign suffix into the
message_thread_id; none stands for the ValueError of a failed unpack. -/
def getFullUrl (url uniqueId text : String) : Option String :=
  let uid := (splitChars ':' uniqueId.data).getLastD ""
  if containsChar uid '@' then
    match splitChars '@' uid.data with
    | [chatId, threadId] =>
      some (url ++ "?chat_id=" ++ chatId ++ "&message_thread_id=" ++ threadId ++ "&text=" ++ text)
    | _ => none
  else
    some (url ++ "?chat_id=" ++ uid ++ "&text=" ++ text)

/-- Lookup of one destination cache. -/
def TgState.cacheOf (s : TgState) (i : String) : List CacheEntry :=
  ((s.caches.find? (fun p => p.1 = i)).map Prod.snd).getD []

/-- Update an association list at a key, in place when present. -/
def assocSet {β : Type} (m : List (String × β)) (k : String) (v : β) : List (String × β) :=
  if m.any (fun p => p.1 = k) then
    m.map (fun p => if p.1 = k then (k, v) else p)
  else m ++ [(k, v)]

/-- Append to a collections.deque with the given maxlen: the new element
goes to the right and the oldest entries drop from the left so that the
length never exceeds the capacity. -/
def dequePush {α : Type} (cap : Nat) (q : List α) (x : α) : List α :=
  (q ++ [x]).drop ((q ++ [x]).length - cap)

/-- Model of TelegramHandler._request: record the attempt, consume one
oracle outcome, store feedback when the body was read, and return the
boolean the code returns. -/
def TgState.doRequest (oracle : Oracle) (s : TgState) (i : String) (fullUrl : String) :
    TgState × Bool :=
  let o := oracle s.reqCount
  let s := { s with reqCount := s.reqCount + 1,
                    requests := s.requests ++ [(i, fullUrl)] }
  let s :=
    match o with
    | .success => { s with feedback := assocSet s.feedback i (some o) }
    | .jsonError => { s with feedback := assocSet s.feedback i (some o) }
    | _ => s
  (s, o.toBool)

/-- Inner while loop of TelegramHandler.send over one destination queue:
format the head (raw records through the formatter, grouped entries as
stored), build the url, request, and pop on a true return or break on a
false one; some () is a propagating exception (formatter failure or
unpack error), which leaves the current head in the queue. -/
def TgState.sendOne (render : Render) (oracle : Oracle) (i : String) :
    List CacheEntry → TgState → List CacheEntry × TgState × Option Unit
  | [], s => ([], s, none)
  | e :: rest, s =>
    let fmtRes :=
      match e with
      | .raw r => formatTg render r
      | .grouped _ t => Except.ok t
    match fmtRes with
    | .error _ => (e :: rest, s, some ())
    | .ok msgOut =>
      match getFullUrl s.url i msgOut with
      | none => (e :: rest, s, some ())
      | some fu =>
        match s.doRequest oracle i fu with
        | (s, true) => TgState.sendOne render oracle i rest s
        | (s, false) => (e :: rest, s, none)

/-- Outer loop of TelegramHandler.send over the destination ids; an
exception aborts the remaining destinations after writing back the
partially drained queue. -/
def TgState.sendIds (render : Render) (oracle : Oracle) :
    List String → TgState → TgState × Option Unit
  | [], s => (s, none)
  | i :: rest, s =>
    match TgState.sendOne render oracle i (s.cacheOf i) s with
    | (q2, s2, none) =>
      TgState.sendIds render oracle rest { s2 with caches := assocSet s2.caches i q2 }
    | (q2, s2, some e) => ({ s2 with caches := assocSet s2.caches i q2 }, some e)

/-- Model of TelegramHandler.send. -/
def TgState.send (render : Render) (oracle : Oracle) (s : TgState) : TgState × Option Unit :=
  TgState.sendIds render oracle s.uniqueIds s

/-- Model of TelegramHandler._is_duplicated_record: on the first record
it sets last_record, resets the counter and answers false; afterwards
it compares the seven identity attributes. -/
def isDupAttrs (a b : LogRecord) : Bool :=
  a.msg = b.msg && a.name = b.name && a.levelno = b.levelno &&
  a.pathname = b.pathname && a.lineno = b.lineno && a.args = b.args &&
  a.funcName = b.funcName

/-- State effect and answer of TelegramHandler._is_duplicated_record. -/
def TgState.isDuplicatedRecord (s : TgState) (r : LogRecord) : TgState × Bool :=
  match s.lastRecord with
  | none => ({ s with lastRecord := some r, dupCount := 0 }, false)
  | some lr => (s, isDupAttrs r lr)

/-- Model of TelegramHandler._cache_records: route to the destination
whose id carries the dest_name label (dropping the record when none
matches), else broadcast to every destination cache; each insertion is
a deque append with maxlen 100. -/
def TgState.cacheRecords (s : TgState) (r : LogRecord) : TgState :=
  if r.dest_name ≠ "" then
    match s.uniqueIds.find? (fun x => startsWithPy x (r.dest_name ++ ":")) with
    | some destId =>
      { s with caches := assocSet s.caches destId (dequePush 100 (s.cacheOf destId) (.raw r)) }
    | none => s
  else
    s.uniqueIds.foldl
      (fun st i => { st with caches := assocSet st.caches i (dequePush 100 (st.cacheOf i) (.raw r)) })
      s

/-- Remark string attached to a duplicated run of k repeats. -/
def remarkFor (k : Nat) : String :=
  "\n (Message repeated " ++ toString k ++ " times)"

/-- Model of TelegramHandler.emit.  The second component is some () when
an exception escapes (in which case the lock has not been released, as
in the code, which has no try/finally around the body). -/
def TgState.emit (render : Render) (oracle : Oracle) (r : LogRecord) (s : TgState) :
    TgState × Option Unit :=
  let s := s.acquire
  match s.isDuplicatedRecord r with
  | (s, true) => ((TgState.release { s with dupCount := s.dupCount + 1 }), none)
  | (s, false) =>
    if s.dupCount ≠ 0 then
      match s.lastRecord with
      | none => (s, some ())
      | some lr0 =>
        let lr := { lr0 with remark := remarkFor s.dupCount }
        let s := s.cacheRecords lr
        let s := s.cacheRecords r
        let s := { s with lastRecord := some r, dupCount := 0 }
        if s.groupingInterval = 0 then
          match s.send render oracle with
          | (s, none) => (s.release, none)
          | (s, some e) => (s, some e)
        else (s.release, none)
    else
      let s := s.cacheRecords r
      let s := { s with lastRecord := some r }
      if s.groupingInterval = 0 then
        match s.send render oracle with
        | (s, none) => (s.release, none)
        | (s, some e) => (s, some e)
      else (s.release, none)

/-- Running emit over a list of records, stopping at the first escaped
exception. -/
def TgState.emitSeq (render : Render) (oracle : Oracle) :
    List LogRecord → TgState → TgState × Option Unit
  | [], s => (s, none)
  | r :: rs, s =>
    match s.emit render oracle r with
    | (s2, none) => TgState.emitSeq render oracle rs s2
    | (s2, some e) => (s2, some e)

/- Section: msg_grouping.  The local group dict maps an integer second
   to either a list of rendered strings (raw records of the open
   window) or a bare string (an already grouped entry), mirroring the
   two value shapes the Python dict holds; insertion order of the dict
   is kept, and updating an existing key keeps its position. -/

/-- Value stored in the group dict of msg_grouping. -/
inductive GVal where
  | lst : List String → GVal
  | strv : String → GVal
deriving DecidableEq, Repr

/-- Set a key of the group dict, in place when present, appended when new. -/
def gset (g : List (Nat × GVal)) (k : Nat) (v : GVal) : List (Nat × GVal) :=
  if g.any (fun p => p.1 = k) then
    g.map (fun p => if p.1 = k then (k, v) else p)
  else g ++ [(k, v)]

/-- Model of group[k].append(m): none stands for the KeyError of a
missing key or the missing append attribute of a str value. -/
def gappend (g : List (Nat × GVal)) (k : Nat) (m : String) : Option (List (Nat × GVal)) :=
  match (g.find? (fun p => p.1 = k)).map Prod.snd with
  | some (.lst l) => some (gset g k (.lst (l ++ [m])))
  | some (.strv _) => none
  | none => none

/-- Final rendering of one group dict value: the Python expression
given by joining the value with the percent-encoded newline token; on a
str value this iterates over its characters, as Python join does. -/
def joinG : GVal → String
  | .lst l => joinSep "%0A" l
  | .strv t => joinSep "%0A" (t.data.map String.singleton)

/-- Draining while loop of TelegramHandler.msg_grouping over one
destination queue: grouped entries are written into the dict at their
timestamp and skipped, raw records are appended to the open window or
open a new one; an exception (formatter failure, or the KeyError paths
of gappend) leaves the already popped records lost and the rest in the
queue, as the code does. -/
def msgGroupingOne (render : Render) (gi : Nat) :
    List CacheEntry → Nat → List (Nat × GVal) →
    List CacheEntry × List (Nat × GVal) × Option Unit
  | [], _, g => ([], g, none)
  | e :: rest, starting, g =>
    match e with
    | .grouped ts m => msgGroupingOne render gi rest starting (gset g ts (.strv m))
    | .raw r =>
      match formatTg render r with
      | .error _ => (rest, g, some ())
      | .ok msg =>
        if starting ≤ r.created ∧ r.created < starting + gi then
          match gappend g starting msg with
          | some g2 => msgGroupingOne render gi rest starting g2
          | none => (rest, g, some ())
        else
          msgGroupingOne render gi rest r.created (gset g r.created (.lst [msg]))

/-- Outer loop of TelegramHandler.msg_grouping over the destination
ids: each drained dict is re-enqueued as one (window, joined text)
entry per bucket, through the deque append with maxlen 100. -/
def TgState.msgGroupingIds (render : Render) :
    List String → TgState → TgState × Option Unit
  | [], s => (s, none)
  | i :: rest, s =>
    match msgGroupingOne render s.groupingInterval (s.cacheOf i) 0 [] with
    | (remaining, _, some e) =>
      ({ s with caches := assocSet s.caches i remaining }, some e)
    | (_, g, none) =>
      let newQ := g.foldl (fun q p => dequePush 100 q (CacheEntry.grouped p.1 (joinG p.2))) []
      TgState.msgGroupingIds render rest { s with caches := assocSet s.caches i newQ }

/-- Model of TelegramHandler.msg_grouping. -/
def TgState.msgGrouping (render : Render) (s : TgState) : TgState × Option Unit :=
  TgState.msgGroupingIds render s.uniqueIds s

/- Section: watcher.  One post-sleep iteration of the watcher thread:
   resend pending messages when grouping is off, else flush a pending
   duplicate run when its count exceeds one. -/

/-- True when some destination cache is non-empty. -/
def TgState.anyCache (s : TgState) : Bool := s.caches.any (fun p => !p.2.isEmpty)

/-- One body iteration of TelegramHandler.watcher (after the sleep):
with grouping off and unsent messages pending, lock and send; else
with dup_count above one, lock, annotate and enqueue the last record,
send, reset dup_count and unlock.  As in emit, an escaping exception
skips the release and the dup_count reset. -/
def TgState.watcherCycle (render : Render) (oracle : Oracle) (s : TgState) :
    TgState × Option Unit :=
  if s.anyCache ∧ s.groupingInterval = 0 then
    let s := s.acquire
    match s.send render oracle with
    | (s, none) => (s.release, none)
    | (s, some e) => (s, some e)
  else if s.dupCount > 1 then
    let s := s.acquire
    match s.lastRecord with
    | none => (s, some ())
    | some lr0 =>
      let lr := { lr0 with remark := remarkFor s.dupCount }
      let s := { s with lastRecord := some lr }
      let s := s.cacheRecords lr
      match s.send render oracle with
      | (s, none) => (TgState.release { s with dupCount := 0 }, none)
      | (s, some e) => (s, some e)
  else (s, none)

/- Section: concrete scenario data used by the claims.  mRender is a
   formatter that renders a record as its message (the external
   formatter is out of the handler and only its output matters);
   failRender raises on one designated record, standing for a
   formatter whose argument substitution fails. -/

/-- Formatter rendering a record as its message. -/
def mRender : Render := fun r => .ok r.msg

/-- Formatter raising on records whose message is BOOM. -/
def failRender : Render := fun r => if r.msg = "BOOM" then .error () else .ok r.msg

/-- Network oracle answering 2xx to every request. -/
def allOk : Oracle := fun _ => .success

/-- Network oracle answering 403 to the first request and 429 afterwards. -/
def oracle403 : Oracle := fun k => if k = 0 then .http403 else .http429

/-- Network oracle answering 429 to every request. -/
def all429 : Oracle := fun _ => .http429

/-- Base record of the scenarios. -/
def rHello : LogRecord :=
  { msg := "hello", name := "root", levelno := 20, pathname := "app.py",
    lineno := 10, args := [], funcName := "main", created := 1000 }

/-- Field-identical to rHello except for the message. -/
def rWorld : LogRecord := { rHello with msg := "world" }

/-- Record on which failRender raises. -/
def rBoom : LogRecord := { rHello with msg := "BOOM" }

/-- Sink state of the C1 scenario: destinations 100 and 200 at topic 55,
grouping disabled. -/
def s0C1 : TgState := initTg "" ["100", "200@55"] 0

/-- Outbound url base with an empty token. -/
def BASEURL : String := "https://api.telegram.org/bot/sendMessage"

/-- Expected url of the first hello delivery to destination 100. -/
def uHello1 : String := BASEURL ++ "?chat_id=100&text=hello"

/-- Expected url of the first hello delivery to destination 200 at topic 55. -/
def uHello2 : String := BASEURL ++ "?chat_id=200&message_thread_id=55&text=hello"

/-- Expected url of the world delivery to destination 100. -/
def uWorld1 : String := BASEURL ++ "?chat_id=100&text=world"

/-- Expected url of the world delivery to destination 200 at topic 55. -/
def uWorld2 : String := BASEURL ++ "?chat_id=200&message_thread_id=55&text=world"

/-- Expected url of the annotated duplicate delivery to destination 100. -/
def uRep1 (k : Nat) : String :=
  BASEURL ++ "?chat_id=100&text=" ++ quotePlus ("hello" ++ remarkFor k)

/-- Expected url of the annotated duplicate delivery to destination 200. -/
def uRep2 (k : Nat) : String :=
  BASEURL ++ "?chat_id=200&message_thread_id=55&text=" ++ quotePlus ("hello" ++ remarkFor k)

/-- State after the first emit of rHello on s0C1: the record was cached,
sent to both destinations at once, and became last_record. -/
def S1 : TgState :=
  { s0C1 with lastRecord := some rHello, reqCount := 2,
              feedback := [("100", some .success), ("200@55", some .success)],
              requests := [("100", uHello1), ("200@55", uHello2)] }

/-- Final state of the C1 scenario run with k duplicate emits. -/
def SfinalC1 (k : Nat) : TgState :=
  { S1 with lastRecord := some rWorld, reqCount := 6,
            requests := [("100", uHello1), ("200@55", uHello2),
                         ("100", uRep1 k), ("100", uWorld1),
                         ("200@55", uRep2 k), ("200@55", uWorld2)] }

/-- The C1 scenario run: one rHello, then k duplicate emits of rHello,
then one rWorld, on the two-destination sink with grouping disabled. -/
def c1run (k : Nat) : TgState × Option Unit :=
  TgState.emitSeq mRender allOk (rHello :: (List.replicate k rHello ++ [rWorld])) s0C1

/-- C4 state: one already-grouped entry pending from a failed send. -/
def s4mangle : TgState :=
  { initTg "" ["100"] 5 with caches := [("100", [.grouped 1000 "ab"])] }

/-- Raw records of the C4 windowing scenario. -/
def r1a : LogRecord := { rHello with msg := "a1", created := 1000 }

/-- Second raw record, inside the window opened at 1000. -/
def r2a : LogRecord := { rHello with msg := "a2", created := 1002 }

/-- Third raw record, outside the window opened at 1000. -/
def r3a : LogRecord := { rHello with msg := "a3", created := 1007 }

/-- C4 state: three raw records pending, grouping interval five. -/
def s4window : TgState :=
  { initTg "" ["100"] 5 with caches := [("100", [.raw r1a, .raw r2a, .raw r3a])] }

/-- C5 state: empty caches and a pending duplicate run of count k. -/
def c5state (k : Nat) : TgState := { s0C1 with lastRecord := some rHello, dupCount := k }

/-- Mapping of a (timestamp, text) pair to a grouped cache entry. -/
def gEntryOf (p : Nat × String) : CacheEntry := CacheEntry.grouped p.1 p.2

/-- C3 state: destination 1 holds a head entry followed by rest,
destination 2 holds q2, all grouped entries. -/
def c3state (rest q2 : List (Nat × String)) : TgState :=
  { initTg "" ["1", "2"] 0 with
    caches := [("1", CacheEntry.grouped 5 "headmsg" :: rest.map gEntryOf),
               ("2", q2.map gEntryOf)] }

/-- Buffered writer of the C9 scenario: five-line threshold, no timer. -/
def bufState5 : BufState := { bufferTime := 0, bufferLines := 5 }

/-- Result state of a watcher cycle that flushes a duplicate run of
count k on the C5 scenario state. -/
def SwatchC5 (k : Nat) : TgState :=
  { s0C1 with lastRecord := some { rHello with remark := remarkFor k },
              reqCount := 2,
              feedback := [("100", some .success), ("200@55", some .success)],
              requests := [("100", uRep1 k), ("200@55", uRep2 k)] }

/-- Url of a text sent to a plain chat id under the empty token. -/
def uC3 (i x : String) : String := BASEURL ++ "?chat_id=" ++ i ++ "&text=" ++ x

/-- State after the first send pass of the C3 scenario (403 on the head
request, 429 afterwards). -/
def c3out (rest q2 : List (Nat × String)) : TgState :=
  (TgState.send mRender oracle403 (c3state rest q2)).1

/-- State after a second send pass (next watcher cycle) over the C3
scenario, rate limited on every request. -/
def c3out2 (rest q2 : List (Nat × String)) : TgState :=
  (TgState.send mRender all429 (c3out rest q2)).1

/- Section: helper lemmas shared by the claim theorems. -/

/-- Left cancellation of string append. -/
theorem strApp_left_cancel {s a b : String} (h : s ++ a = s ++ b) : a = b := by
  obtain ⟨ds⟩ := s
  obtain ⟨da⟩ := a
  obtain ⟨db⟩ := b
  have h2 : ds ++ da = ds ++ db := congrArg String.data h
  exact congrArg String.mk (List.append_cancel_left h2)

/-- Emitting a record identical to last_record only increments dup_count. -/
theorem emit_dup (o : Oracle) (s : TgState) (h : s.lastRecord = some rHello) :
    TgState.emit mRender o rHello s = ({ s with dupCount := s.dupCount + 1 }, none) := by
  obtain ⟨ids, url, caches, fb, lastR, dc, gi, lc, rc, reqs, st⟩ := s
  simp only at h
  subst h
  simp [TgState.emit, TgState.acquire, TgState.release, TgState.isDuplicatedRecord,
        show isDupAttrs rHello rHello = true from by decide]

/-- Emitting k records identical to last_record adds k to dup_count and
changes nothing else. -/
theorem emitSeq_replicate (o : Oracle) (k : Nat) (s : TgState) (h : s.lastRecord = some rHello) :
    TgState.emitSeq mRender o (List.replicate k rHello) s =
      ({ s with dupCount := s.dupCount + k }, none) := by
  induction k generalizing s with
  | zero =>
    obtain ⟨ids, url, caches, fb, lastR, dc, gi, lc, rc, reqs, st⟩ := s
    simp [TgState.emitSeq, List.replicate]
  | succ n ih =>
    have h2 : ({ s with dupCount := s.dupCount + 1 } : TgState).lastRecord = some rHello := by
      simpa using h
    rw [List.replicate_succ, TgState.emitSeq]
    simp only [emit_dup o s h]
    rw [ih _ h2]
    obtain ⟨ids, url, caches, fb, lastR, dc, gi, lc, rc, reqs, st⟩ := s
    simp
    omega

/-- Sequencing emits over an append, when the first part does not raise. -/
theorem emitSeq_append (render : Render) (o : Oracle) (l1 l2 : List LogRecord) (s : TgState)
    (h : (TgState.emitSeq render o l1 s).2 = none) :
    TgState.emitSeq render o (l1 ++ l2) s =
      TgState.emitSeq render o l2 (TgState.emitSeq render o l1 s).1 := by
  induction l1 generalizing s with
  | nil => simp [TgState.emitSeq]
  | cons r rs ih =>
    rw [List.cons_append]
    rw [TgState.emitSeq] at h
    rw [TgState.emitSeq]
    split at h
    next s2 heq =>
      have h3 : TgState.emitSeq render o (r :: rs) s = TgState.emitSeq render o rs s2 := by
        rw [TgState.emitSeq, heq]
      rw [h3]
      exact ih s2 h
    next s2 e heq =>
      exact Option.noConfusion h

/-- Length of a bounded deque append: the capacity caps the length. -/
theorem dequePush_length {α : Type} (cap : Nat) (q : List α) (x : α) :
    (dequePush cap q x).length = min (q.length + 1) cap := by
  simp [dequePush]
  omega

/-- Novel record after a pending duplicate run of count n plus one on
the C1 scenario: the annotated last record, then the new record, are
enqueued and sent to both destinations. -/
theorem emitSeq_final_world (n : Nat) :
    TgState.emitSeq mRender allOk [rWorld] { S1 with dupCount := n + 1 } =
      (SfinalC1 (n + 1), none) := rfl

/- Section: claim theorems. -/

/-- C1 counterexample: in the scenario with destinations 100 and 200@55,
grouping disabled, three identical records then one different record,
destination 100 receives three delivered payloads, not the two the
claim asserts (the first record is sent immediately, before any
duplicate arrives). -/
theorem C1_counterexample :
    ((c1run 2).1.requests.filter (fun p => p.1 = "100")).length = 3 ∧
    ((c1run 2).1.requests.filter (fun p => p.1 = "100")).length ≠ 2 := by decide

/-- C2 evaluation at the failing inputs: the constructor assert of the
buffered writer passes with both buffer_time and buffer_lines zero
(because it tests greater-or-equal zero instead of positivity), and the
notification sink constructor accepts check_interval 6 with
grouping_interval 1 although its own error message demands at least
twice the push interval, ten. -/
theorem C2_code_eval :
    bufferInitAssertPasses 0 0 = true ∧ telegramInitCheck 6 1 = .ok () ∧
    telegramInitCheck 5 1 = .error "check_interval is too small" := by decide

/-- C4 evaluation: an already-grouped entry (1000, ab) pending from a
failed send is re-rendered by msg_grouping as a%0Ab (the join iterates
over the characters of the string), not carried through unchanged,
while raw records are correctly bucketed into
grouping_interval-second windows. -/
theorem C4_code_eval :
    (TgState.msgGrouping mRender s4mangle).1.caches =
      [("100", [CacheEntry.grouped 1000 "a%0Ab"])] ∧
    ("a%0Ab" : String) ≠ "ab" ∧
    (TgState.msgGrouping mRender s4window).1.caches =
      [("100", [CacheEntry.grouped 1000 "a1%0Aa2", CacheEntry.grouped 1007 "a3"])] := by decide

/-- C5 counterexample: with empty caches and exactly one pending
duplicate (dup_count equal to one), a watcher cycle does nothing: no
annotation, no enqueue, no send, and dup_count stays one, because the
code flushes only when dup_count exceeds one. -/
theorem C5_counterexample :
    TgState.watcherCycle mRender allOk (c5state 1) = (c5state 1, none) ∧
    (c5state 1).dupCount = 1 := by decide

/-- C6 evaluation: emitting a record whose formatter raises (grouping
disabled, one destination) lets the exception escape emit while the
sink lock, acquired on entry with counter zero, is still held. -/
theorem C6_code_eval :
    (TgState.emit failRender allOk rBoom (initTg "" ["100"] 0)).2 = some () ∧
    (TgState.emit failRender allOk rBoom (initTg "" ["100"] 0)).1.lockCount = 1 ∧
    (initTg "" ["100"] 0).lockCount = 0 := by decide

/-- C8 counterexample: the single numeric id zero is falsy in Python, so
set_unique_ids maps it to the empty list instead of the one-element
list containing its decimal string. -/
theorem C8_counterexample :
    set_unique_ids (PyVal.pint 0) = .ok [] ∧
    set_unique_ids (PyVal.pint 0) ≠ .ok ["0"] := by decide

/-- C1 amended: with grouping disabled, a first record, k consecutive
field-identical repeats and then one different record yield, per
destination, three delivered payloads: the first record un-annotated
(sent immediately on first emit), the first record again with the
remark repeated-k-times (counting only the repeats), and the new
record; in the scenario the two destinations receive them addressed to
chat_id 100 and to chat_id 200 with message_thread_id 55, the caches
end empty and dup_count ends zero. -/
theorem C1_amended : ∀ k : Nat, 1 ≤ k →
    (c1run k).2 = none ∧
    ((c1run k).1.requests.filter (fun p => p.1 = "100")).map Prod.snd =
      [uHello1, uRep1 k, uWorld1] ∧
    ((c1run k).1.requests.filter (fun p => p.1 = "200@55")).map Prod.snd =
      [uHello2, uRep2 k, uWorld2] ∧
    (c1run k).1.requests.length = 6 ∧
    TgState.cacheOf (c1run k).1 "100" = [] ∧
    TgState.cacheOf (c1run k).1 "200@55" = [] ∧
    (c1run k).1.dupCount = 0 := by
  intro k hk
  obtain ⟨n, rfl⟩ : ∃ n, k = n + 1 := ⟨k - 1, by omega⟩
  have h0 : TgState.emit mRender allOk rHello s0C1 = (S1, none) := by decide
  have hrep := emitSeq_replicate allOk (n + 1) S1 (by decide)
  have hstep1 :
      TgState.emitSeq mRender allOk (rHello :: (List.replicate (n + 1) rHello ++ [rWorld])) s0C1 =
        TgState.emitSeq mRender allOk (List.replicate (n + 1) rHello ++ [rWorld]) S1 := by
    rw [TgState.emitSeq, h0]
  have hstep2 := emitSeq_append mRender allOk (List.replicate (n + 1) rHello) [rWorld] S1
    (by rw [hrep])
  have hc : c1run (n + 1) = (SfinalC1 (n + 1), none) := by
    rw [c1run, hstep1, hstep2, hrep]
    rw [show S1.dupCount + (n + 1) = n + 1 from by simp [S1, s0C1, initTg]]
    exact emitSeq_final_world n
  rw [hc]
  exact ⟨rfl, rfl, rfl, rfl, rfl, rfl, rfl⟩

/-- C1 amended witness at k equal 2, the scenario of the claim. -/
theorem C1_amended_witness :
    1 ≤ 2 ∧
    ((c1run 2).2 = none ∧
     ((c1run 2).1.requests.filter (fun p => p.1 = "100")).map Prod.snd =
       [uHello1, uRep1 2, uWorld1] ∧
     ((c1run 2).1.requests.filter (fun p => p.1 = "200@55")).map Prod.snd =
       [uHello2, uRep2 2, uWorld2] ∧
     (c1run 2).1.requests.length = 6 ∧
     TgState.cacheOf (c1run 2).1 "100" = [] ∧
     TgState.cacheOf (c1run 2).1 "200@55" = [] ∧
     (c1run 2).1.dupCount = 0) :=
  ⟨by decide, C1_amended 2 (by decide)⟩

/-- C5 amended: on a watcher cycle with no unsent cache entries and a
pending duplicate run whose count exceeds one (the code flushes only
above one, not above zero as the claim says), the watcher annotates the
last record with the repeat-count remark, enqueues it to every
destination, sends it, resets dup_count to zero and releases the lock. -/
theorem C5_amended : ∀ k : Nat, 2 ≤ k →
    (TgState.watcherCycle mRender allOk (c5state k)).2 = none ∧
    (TgState.watcherCycle mRender allOk (c5state k)).1.dupCount = 0 ∧
    ((TgState.watcherCycle mRender allOk (c5state k)).1.requests).map Prod.snd =
      [uRep1 k, uRep2 k] ∧
    TgState.cacheOf (TgState.watcherCycle mRender allOk (c5state k)).1 "100" = [] ∧
    TgState.cacheOf (TgState.watcherCycle mRender allOk (c5state k)).1 "200@55" = [] ∧
    (TgState.watcherCycle mRender allOk (c5state k)).1.lockCount = (c5state k).lockCount ∧
    (TgState.watcherCycle mRender allOk (c5state k)).1.lastRecord =
      some { rHello with remark := remarkFor k } := by
  intro k hk
  obtain ⟨n, rfl⟩ : ∃ n, k = n + 2 := ⟨k - 2, by omega⟩
  have hneg : ¬((c5state (n + 2)).anyCache ∧ (c5state (n + 2)).groupingInterval = 0) := by
    simp [c5state, s0C1, initTg, TgState.anyCache, dedupFirst]
  have hpos : (c5state (n + 2)).dupCount > 1 := by
    simp only [c5state]
    omega
  have hw : TgState.watcherCycle mRender allOk (c5state (n + 2)) = (SwatchC5 (n + 2), none) := by
    rw [TgState.watcherCycle, if_neg hneg, if_pos hpos]
    rfl
  rw [hw]
  exact ⟨rfl, rfl, rfl, rfl, rfl, rfl, rfl⟩

/-- C5 amended witness at dup_count 3. -/
theorem C5_amended_witness :
    2 ≤ 3 ∧
    ((TgState.watcherCycle mRender allOk (c5state 3)).2 = none ∧
     (TgState.watcherCycle mRender allOk (c5state 3)).1.dupCount = 0 ∧
     ((TgState.watcherCycle mRender allOk (c5state 3)).1.requests).map Prod.snd =
       [uRep1 3, uRep2 3] ∧
     TgState.cacheOf (TgState.watcherCycle mRender allOk (c5state 3)).1 "100" = [] ∧
     TgState.cacheOf (TgState.watcherCycle mRender allOk (c5state 3)).1 "200@55" = [] ∧
     (TgState.watcherCycle mRender allOk (c5state 3)).1.lockCount = (c5state 3).lockCount ∧
     (TgState.watcherCycle mRender allOk (c5state 3)).1.lastRecord =
       some { rHello with remark := remarkFor 3 }) :=
  ⟨by decide, C5_amended 3 (by decide)⟩

/-- Injectivity of the url in the text argument. -/
theorem uC3_inj {i a b : String} (h : uC3 i a = uC3 i b) : a = b := by
  unfold uC3 at h
  exact strApp_left_cancel h

/-- C3: in a send pass where the head request of destination 1 gets a
403 and every further request a 429: exactly the head entry of
destination 1 is removed (the entries behind it stay, in order),
destination 2 is left entirely unchanged, yet destination 2 was still
attempted in the same pass; a second pass (the next watcher cycle)
requests only the current heads, so the popped entry is never retried. -/
theorem C3_send_outcomes : ∀ (rest q2 : List (Nat × String)),
    (TgState.send mRender oracle403 (c3state rest q2)).2 = none ∧
    TgState.cacheOf (c3out rest q2) "1" = rest.map gEntryOf ∧
    TgState.cacheOf (c3out rest q2) "2" = q2.map gEntryOf ∧
    (c3out rest q2).requests.head? = some ("1", uC3 "1" "headmsg") ∧
    (q2 ≠ [] → ((c3out rest q2).requests.filter (fun p => p.1 = "2")).length = 1) ∧
    (c3out2 rest q2).requests =
      (c3out rest q2).requests ++
        ((match rest with | [] => [] | p :: _ => [("1", uC3 "1" p.2)]) ++
         (match q2 with | [] => [] | p :: _ => [("2", uC3 "2" p.2)])) ∧
    ((∀ p ∈ rest, p.2 ≠ "headmsg") → (∀ p ∈ q2, p.2 ≠ "headmsg") →
      ("1", uC3 "1" "headmsg") ∉
        ((c3out2 rest q2).requests.drop (c3out rest q2).requests.length)) := by
  intro rest q2
  cases rest with
  | nil =>
    cases q2 with
    | nil =>
      refine ⟨rfl, rfl, rfl, rfl, by intro h; exact absurd rfl h, rfl, ?_⟩
      intro _ _
      simp [c3out2, c3out, c3state, TgState.send, TgState.sendIds, TgState.sendOne,
            TgState.cacheOf, initTg, dedupFirst]
    | cons p2 t2 =>
      refine ⟨rfl, rfl, rfl, rfl, by intro _; rfl, rfl, ?_⟩
      intro _ h2
      have hp2 := h2 p2 (by simp)
      simp only [show ((c3out2 [] (p2 :: t2)).requests.drop
          (c3out [] (p2 :: t2)).requests.length) = [("2", uC3 "2" p2.2)] from rfl]
      simp
  | cons p1 t1 =>
    cases q2 with
    | nil =>
      refine ⟨rfl, rfl, rfl, rfl, by intro h; exact absurd rfl h, rfl, ?_⟩
      intro h1 _
      have hp1 := h1 p1 (by simp)
      simp only [show ((c3out2 (p1 :: t1) []).requests.drop
          (c3out (p1 :: t1) []).requests.length) = [("1", uC3 "1" p1.2)] from rfl]
      simp
      intro heq
      exact absurd (uC3_inj heq.symm) hp1
    | cons p2 t2 =>
      refine ⟨rfl, rfl, rfl, rfl, by intro _; rfl, rfl, ?_⟩
      intro h1 h2
      have hp1 := h1 p1 (by simp)
      have hp2 := h2 p2 (by simp)
      simp only [show ((c3out2 (p1 :: t1) (p2 :: t2)).requests.drop
          (c3out (p1 :: t1) (p2 :: t2)).requests.length) =
          [("1", uC3 "1" p1.2), ("2", uC3 "2" p2.2)] from rfl]
      simp
      intro heq
      exact absurd (uC3_inj heq.symm) hp1

/-- C3 witness: one entry behind the 403 head and one entry at the
second destination. -/
theorem C3_send_outcomes_witness :
    (TgState.send mRender oracle403 (c3state [(6, "x")] [(7, "y")])).2 = none ∧
    TgState.cacheOf (c3out [(6, "x")] [(7, "y")]) "1" = [CacheEntry.grouped 6 "x"] ∧
    TgState.cacheOf (c3out [(6, "x")] [(7, "y")]) "2" = [CacheEntry.grouped 7 "y"] ∧
    (c3out [(6, "x")] [(7, "y")]).requests.head? = some ("1", uC3 "1" "headmsg") ∧
    ((c3out [(6, "x")] [(7, "y")]).requests.filter (fun p => p.1 = "2")).length = 1 ∧
    (c3out2 [(6, "x")] [(7, "y")]).requests =
      (c3out [(6, "x")] [(7, "y")]).requests ++
        [("1", uC3 "1" "x"), ("2", uC3 "2" "y")] ∧
    ("1", uC3 "1" "headmsg") ∉
      ((c3out2 [(6, "x")] [(7, "y")]).requests.drop
        (c3out [(6, "x")] [(7, "y")]).requests.length) := by
  have h := C3_send_outcomes [(6, "x")] [(7, "y")]
  exact ⟨h.1, h.2.1, h.2.2.1, h.2.2.2.1, h.2.2.2.2.1 (by decide),
         h.2.2.2.2.2.1, h.2.2.2.2.2.2 (by decide) (by decide)⟩

/-- C7: a destination cache never exceeds the capacity of 100 under any
sequence of insertions, and an insertion into a full cache evicts
exactly the oldest entry, keeping the others in order. -/
theorem C7_bounded_cache :
    (∀ (xs : List CacheEntry) (q : List CacheEntry), q.length ≤ 100 →
        (xs.foldl (dequePush 100) q).length ≤ 100) ∧
    (∀ (q : List CacheEntry) (x : CacheEntry), q.length = 100 →
        dequePush 100 q x = q.tail ++ [x]) := by
  constructor
  · intro xs
    induction xs with
    | nil => intro q h; simpa using h
    | cons a l ih =>
      intro q h
      rw [List.foldl_cons]
      exact ih _ (by rw [dequePush_length]; omega)
  · intro q x h
    cases q with
    | nil => simp at h
    | cons b t =>
      simp only [dequePush, List.cons_append]
      have h99 : t.length = 99 := by simpa using h
      simp [h99]

/-- C7 witness: a full cache of 100 entries, one insertion, and a run
of 150 insertions into an initially empty cache. -/
theorem C7_bounded_cache_witness :
    (List.replicate 100 (CacheEntry.grouped 0 "m")).length = 100 ∧
    dequePush 100 (List.replicate 100 (CacheEntry.grouped 0 "m")) (CacheEntry.grouped 1 "x") =
      (List.replicate 100 (CacheEntry.grouped 0 "m")).tail ++ [CacheEntry.grouped 1 "x"] ∧
    ((List.replicate 150 (CacheEntry.grouped 2 "y")).foldl (dequePush 100) []).length ≤ 100 := by
  refine ⟨by simp, C7_bounded_cache.2 _ _ (by simp), C7_bounded_cache.1 _ _ (by simp)⟩

/-- C8 amended: a non-empty string is split on semicolons into stripped
identifiers; a nonzero numeric id becomes a one-element list of its
decimal string; any falsy value (absent, the number zero, the empty
string, or any other falsy object) gives the empty list; a truthy value
of any other type raises TypeError. -/
theorem C8_amended :
    (∀ s : String, s ≠ "" →
        set_unique_ids (.pstr s) = .ok ((pySplit s ';').map pyStrip)) ∧
    (∀ n : Int, n ≠ 0 → set_unique_ids (.pint n) = .ok [toString n]) ∧
    set_unique_ids .pnone = .ok [] ∧
    set_unique_ids (.pint 0) = .ok [] ∧
    set_unique_ids (.pstr "") = .ok [] ∧
    set_unique_ids (.pother false) = .ok [] ∧
    set_unique_ids (.pother true) = .error "TypeError" := by
  refine ⟨?_, ?_, by decide, by decide, by decide, by decide, by decide⟩
  · intro s hs
    simp [set_unique_ids, pyTruthy, hs]
  · intro n hn
    simp [set_unique_ids, pyTruthy, hn]

/-- C8 amended witness: an environment string with spaces and a topic
suffix, and a negative numeric id. -/
theorem C8_amended_witness :
    set_unique_ids (.pstr " 100 ;200@55") = .ok ["100", "200@55"] ∧
    set_unique_ids (.pint (-5)) = .ok ["-5"] := by
  constructor
  · rw [C8_amended.1 " 100 ;200@55" (by decide)]
    decide
  · rw [C8_amended.2.1 (-5) (by decide)]
    decide

/-- One emit below the threshold only appends to the buffer. -/
theorem emit_below (s : BufState) (x : String)
    (h : (s.buffer.length : Int) + 1 < s.bufferLines) :
    BufState.emit "" s (.ok x) = { s with buffer := s.buffer ++ [x] } := by
  obtain ⟨bt, bl, t, d, buf, w, st⟩ := s
  simp only [BufState.emit]
  have hc : ¬(bl ≠ 0 ∧ bl ≤ (((buf ++ [x]).length : Nat) : Int)) := by
    simp only [List.length_append, List.length_singleton]
    simp at h
    omega
  rw [if_neg hc]

/-- One emit reaching the threshold flushes the whole buffer as one
stream write and clears it. -/
theorem emit_at_threshold (s : BufState) (x : String) (hd : s.debug = false)
    (h : s.bufferLines = (s.buffer.length : Int) + 1) :
    BufState.emit "" s (.ok x) =
      { s with buffer := [],
               writes := s.writes ++ [joinSep s.terminator (s.buffer ++ [x]) ++ s.terminator] } := by
  obtain ⟨bt, bl, t, d, buf, w, st⟩ := s
  simp only at hd h
  subst hd
  simp only [BufState.emit]
  have hc : bl ≠ 0 ∧ bl ≤ (((buf ++ [x]).length : Nat) : Int) := by
    simp only [List.length_append, List.length_singleton]
    constructor
    · intro h0
      rw [h0] at h
      omega
    · simp [h]
  rw [if_pos hc]
  simp [BufState.exportBuf]

/-- Emitting lines that keep the buffer strictly below the threshold
performs no write. -/
theorem emitMany_below (lines : List String) (s : BufState)
    (h : ((s.buffer.length : Int) + lines.length) < s.bufferLines) :
    BufState.emitMany s lines = { s with buffer := s.buffer ++ lines } := by
  induction lines generalizing s with
  | nil =>
    obtain ⟨bt, bl, t, d, buf, w, st⟩ := s
    simp [BufState.emitMany]
  | cons x xs ih =>
    rw [BufState.emitMany, List.foldl_cons]
    rw [show BufState.emit "" s (.ok x) = { s with buffer := s.buffer ++ [x] } from
      emit_below s x (by simp at h ⊢; omega)]
    rw [show (List.foldl (fun st m => BufState.emit "" st (.ok m))
          ({ s with buffer := s.buffer ++ [x] }) xs) =
        BufState.emitMany { s with buffer := s.buffer ++ [x] } xs from rfl]
    rw [ih _ (by simp at h ⊢; omega)]
    obtain ⟨bt, bl, t, d, buf, w, st⟩ := s
    simp

/-- Emitting lines that exactly reach the threshold on the last line
performs exactly one write holding everything in order. -/
theorem emitMany_exact (lines : List String) (s : BufState) (hne : lines ≠ [])
    (hd : s.debug = false)
    (h : s.bufferLines = ((s.buffer.length : Int) + lines.length)) :
    BufState.emitMany s lines =
      { s with buffer := [],
               writes := s.writes ++ [joinSep s.terminator (s.buffer ++ lines) ++ s.terminator] } := by
  induction lines generalizing s with
  | nil => exact absurd rfl hne
  | cons x xs ih =>
    rw [BufState.emitMany, List.foldl_cons]
    cases xs with
    | nil =>
      rw [show BufState.emit "" s (.ok x) =
          { s with buffer := [],
                   writes := s.writes ++ [joinSep s.terminator (s.buffer ++ [x]) ++ s.terminator] } from
        emit_at_threshold s x hd (by simp at h ⊢; omega)]
      rfl
    | cons y ys =>
      rw [show BufState.emit "" s (.ok x) = { s with buffer := s.buffer ++ [x] } from
        emit_below s x (by simp at h ⊢; omega)]
      rw [show (List.foldl (fun st m => BufState.emit "" st (.ok m))
            ({ s with buffer := s.buffer ++ [x] }) (y :: ys)) =
          BufState.emitMany { s with buffer := s.buffer ++ [x] } (y :: ys) from rfl]
      rw [ih { s with buffer := s.buffer ++ [x] } (by simp) hd (by simp at h ⊢; omega)]
      obtain ⟨bt, bl, t, d, buf, w, st⟩ := s
      simp

/-- C9: with a nonzero line threshold, emitting exactly that many lines
triggers exactly one flush whose single stream write is all buffered
lines joined by the terminator, in emission order, leaving the buffer
empty; emitting fewer lines triggers no flush and leaves them all
buffered. -/
theorem C9_buffer_flush :
    (∀ (lines : List String) (s : BufState), s.debug = false → s.buffer = [] →
        lines ≠ [] → s.bufferLines = (lines.length : Int) →
        (BufState.emitMany s lines).writes =
          s.writes ++ [joinSep s.terminator lines ++ s.terminator] ∧
        (BufState.emitMany s lines).buffer = []) ∧
    (∀ (lines : List String) (s : BufState), s.buffer = [] →
        (lines.length : Int) < s.bufferLines →
        (BufState.emitMany s lines).writes = s.writes ∧
        (BufState.emitMany s lines).buffer = lines) := by
  constructor
  · intro lines s hd hb hne hlen
    rw [emitMany_exact lines s hne hd (by rw [hb, hlen]; simp)]
    rw [hb]
    exact ⟨by simp, rfl⟩
  · intro lines s hb hlen
    rw [emitMany_below lines s (by rw [hb]; simpa using hlen)]
    rw [hb]
    exact ⟨rfl, by simp⟩

/-- C9 witness: threshold five; five lines produce the single joined
write, four lines produce none. -/
theorem C9_buffer_flush_witness :
    (BufState.emitMany bufState5 ["l1", "l2", "l3", "l4", "l5"]).writes =
      ["l1\nl2\nl3\nl4\nl5\n"] ∧
    (BufState.emitMany bufState5 ["l1", "l2", "l3", "l4", "l5"]).buffer = [] ∧
    (BufState.emitMany bufState5 ["l1", "l2", "l3", "l4"]).writes = [] ∧
    (BufState.emitMany bufState5 ["l1", "l2", "l3", "l4"]).buffer = ["l1", "l2", "l3", "l4"] := by
  have h1 := C9_buffer_flush.1 ["l1", "l2", "l3", "l4", "l5"] bufState5 rfl rfl
    (by decide) (by decide)
  have h2 := C9_buffer_flush.2 ["l1", "l2", "l3", "l4"] bufState5 rfl (by decide)
  refine ⟨?_, h1.2, ?_, h2.2⟩
  · rw [h1.1]
    decide
  · rw [h2.1]
    rfl

/-- C10: close on either sink only sets the stop flag: the buffer, the
performed writes, the destination caches, the dedup state and the
request log are all left unchanged, so pending content is discarded
rather than flushed. -/
theorem C10_close_frame : ∀ (b : BufState) (t : TgState),
    (BufState.close b).stopFlag = true ∧
    (BufState.close b).buffer = b.buffer ∧
    (BufState.close b).writes = b.writes ∧
    (TgState.close t).stopEvent = true ∧
    (TgState.close t).caches = t.caches ∧
    (TgState.close t).lastRecord = t.lastRecord ∧
    (TgState.close t).dupCount = t.dupCount ∧
    (TgState.close t).requests = t.requests := by
  intro b t
  exact ⟨rfl, rfl, rfl, rfl, rfl, rfl, rfl, rfl⟩

end LoggerTT
